import Mathlib

/-!
Verification of the batch executor with retry and circuit breaker
(source file `model_a.py`).

The Python source is embedded shallowly:

* `do_api_call` is the external-operation stub of the source: it sleeps,
  then builds a success dictionary from the fields of the work item.
  Accessing a missing dictionary key raises `KeyError`; the only `except`
  clause inside `do_api_call` catches `aiohttp.ClientError` and re-raises,
  so a `KeyError` propagates unchanged.  We model the item as a record of
  optional fields and the call as an `Except`.
* `process_with_retries_and_circuit_breaker` is embedded as a
  trace-producing function: the loop `for _ in range(RETRY_COUNT)` becomes
  structural recursion on the number of remaining iterations, threading
  the function-local variables `failure_count` and `circuit_open`, and
  emitting one event per observable action (external call, failure
  recording, circuit transition, rejection branch, backoff sleep).  The
  external operation is a parameter `op : Nat → Except PyError Record`
  giving the outcome of the attempt with index `k`; in the source the
  operation is always `do_api_call`.
* `process_batch` runs the per-item function over the batch with
  `asyncio.gather`, which returns one result per task in task order; the
  per-item runs touch no shared mutable state apart from the semaphore
  (which only affects timing), so the batch is embedded as a `List.map`.
* The semaphore discipline (`async with sem` around the external call) is
  embedded separately as a small-step interleaving system in which each
  task is a phase machine and the semaphore a counter of available
  permits; the in-flight bound is proved as an invariant of every
  reachable state.
* The configuration-loading block of `main` is embedded over an abstract
  description of what the file system and JSON parser yield.
-/

/-- Default pool size from the source (`POOL_SIZE = 10`). -/
def POOL_SIZE : Nat := 10

/-- Default retry count from the source (`RETRY_COUNT = 3`). -/
def RETRY_COUNT : Nat := 3

/-- Default failure threshold from the source (`FAILURE_THRESHOLD = 5`). -/
def FAILURE_THRESHOLD : Nat := 5

/-- Python exceptions that the embedded code can surface. -/
inductive PyError where
  | keyError (field : String)
  | attributeError (attr : String)
  | clientError
  | exn (msg : String)
  deriving DecidableEq, Repr

/-- A work item as the source builds and consumes it: a Python dict with
entries under the keys "id" and "data"; `none` models a missing key. -/
structure PyItem where
  id : Option Int
  data : Option String
  deriving DecidableEq, Repr

/-- The success dictionary built by `do_api_call`. -/
structure Record where
  id : Int
  status : String
  timestamp : String
  data : String
  deriving DecidableEq, Repr

/-- Embedding of `do_api_call`: after the simulated call it builds the
dictionary, evaluating the entries in order, so a missing "id" key raises
`KeyError` for "id" first, then a missing "data" key raises for "data";
otherwise the success record is returned.  The timestamp `str(datetime.now())`
is passed in as the parameter `now`. -/
def do_api_call (now : String) (item : PyItem) : Except PyError Record :=
  match item.id with
  | none => .error (.keyError "id")
  | some i =>
    match item.data with
    | none => .error (.keyError "data")
    | some d => .ok { id := i, status := "success", timestamp := now, data := d }

/-- Observable events of one run of `process_with_retries_and_circuit_breaker`. -/
inductive Ev where
  /-- the external operation is invoked for attempt index `k` -/
  | call (k : Nat)
  /-- the branch that logs "Circuit is open!" and returns None -/
  | rejectOpen
  /-- `failure_count += 1`, with the new value -/
  | recordFailure (n : Nat)
  /-- `circuit_open = True` is assigned -/
  | circuitOpened
  /-- `await asyncio.sleep(2 ** k)` between attempts, with the duration -/
  | sleep (d : Nat)
  deriving DecidableEq, Repr

/-- One iteration step of the retry loop, recursing on the number of
remaining iterations.  Mirrors the loop body of
`process_with_retries_and_circuit_breaker`: inside the semaphore the
local `circuit_open` is checked, then the operation runs; on an exception
`failure_count` is incremented, the threshold is compared, and on a
non-tripping failure the code sleeps `2 ** k` and continues — also when
this was the final iteration. -/
def retryLoop (threshold : Nat) (op : Nat → Except PyError Record) :
    Nat → Nat → Nat → Bool → List Ev × Option Record
  | 0, _, _, _ => ([], none)
  | remaining + 1, k, failure_count, circuit_open =>
    if circuit_open then
      ([.rejectOpen], none)
    else
      match op k with
      | .ok result => ([.call k], some result)
      | .error _ =>
        let fc := failure_count + 1
        if fc > threshold then
          ([.call k, .recordFailure fc, .circuitOpened], none)
        else
          let rest := retryLoop threshold op remaining (k + 1) fc circuit_open
          (.call k :: .recordFailure fc :: .sleep (2 ^ k) :: rest.1, rest.2)

/-- Embedding of `process_with_retries_and_circuit_breaker`: the local
variables start as `failure_count = 0`, `circuit_open = False`, and the
loop runs for `retry_count` iterations starting at attempt index 0.
Returns the event trace and the returned value (`some record` on success,
`none` for every `return None` and for falling off the loop). -/
def process_with_retries_and_circuit_breaker (retry_count threshold : Nat)
    (op : Nat → Except PyError Record) : List Ev × Option Record :=
  retryLoop threshold op retry_count 0 0 false

/-- Embedding of `process_batch` over abstract per-item operations:
`asyncio.gather` returns one result per task, in task order. -/
def process_batch_ops (retry_count threshold : Nat)
    (ops : List (Nat → Except PyError Record)) : List (List Ev × Option Record) :=
  ops.map (process_with_retries_and_circuit_breaker retry_count threshold)

/-- Embedding of `process_batch` as the source runs it: every task invokes
`do_api_call` on its own item, under the default configuration. -/
def process_batch (now : String) (items : List PyItem) : List (List Ev × Option Record) :=
  items.map (fun item =>
    process_with_retries_and_circuit_breaker RETRY_COUNT FAILURE_THRESHOLD
      (fun _ => do_api_call now item))

/-- Is this event an invocation of the external operation? -/
def isCall : Ev → Bool
  | .call _ => true
  | _ => false

/-- Number of external-operation invocations in a trace. -/
def countCalls (t : List Ev) : Nat := t.countP isCall

/-- The backoff durations slept during a trace, in order. -/
def sleeps (t : List Ev) : List Nat :=
  t.filterMap (fun e => match e with | .sleep d => some d | _ => none)

/-- An external operation that errors on every attempt. -/
def failOp : Nat → Except PyError Record := fun _ => .error (.exn "boom")

/-- What the file system and JSON parser can hand to the config-loading
block of `main`: no file, a file that is not valid JSON, a file holding
valid JSON that is not an object (for instance a top-level array), or a
JSON object with the three optional integer entries the code reads. -/
inductive ConfigFile where
  | missing
  | invalidJson
  | jsonArray
  | jsonObject (pool_size retry_count failure_threshold : Option Int)

/-- A log message, with its level. -/
inductive LogEv where
  | warn (msg : String)
  | error (msg : String)
  deriving DecidableEq, Repr

/-- Embedding of the configuration-loading block of `main`:
`FileNotFoundError` is caught and logged as a warning, `JSONDecodeError`
is caught and logged with `logger.error`; both leave the defaults in
place.  When `json.load` yields a non-dict value, `config.get` raises
`AttributeError`, which no handler catches, so loading fails.  When it
yields a dict, each of the three globals is set with `config.get(key,
default)`. -/
def main_load_config : ConfigFile → Except PyError ((Int × Int × Int) × List LogEv)
  | .missing => .ok ((10, 3, 5), [.warn "Config file not found, using defaults"])
  | .invalidJson => .ok ((10, 3, 5), [.error "Invalid config file, using defaults"])
  | .jsonArray => .error (.attributeError "get")
  | .jsonObject p r f => .ok ((p.getD 10, r.getD 3, f.getD 5), [])

/-- The trace produced by the retry loop when every attempt errors and the
threshold is never exceeded: each iteration calls, records the failure and
sleeps — the final iteration included. -/
def allFailTrace : Nat → Nat → Nat → List Ev
  | 0, _, _ => []
  | r + 1, k, fc =>
    .call k :: .recordFailure (fc + 1) :: .sleep (2 ^ k) :: allFailTrace r (k + 1) (fc + 1)

/-- C4 witness: a concrete operation erring on attempts 0 and 1 and
succeeding on attempt 2. -/
def c4op : Nat → Except PyError Record
  | 0 => .error (.exn "boom")
  | 1 => .error (.exn "boom")
  | _ => .ok { id := 9, status := "success", timestamp := "t", data := "d" }

/-- Phase of one per-item task in `process_batch`, as the scheduler can
observe it.  `async with sem` acquires a permit before the circuit check
and the call; the permit is released when the `async with` block exits —
on the success return as well as on the exception unwinding — and the
backoff sleep happens outside the block. -/
inductive TPhase where
  /-- before `async with sem` for attempt `k` (possibly blocked on it) -/
  | waiting (k : Nat)
  /-- holding a permit, with the external call for attempt `k` in flight -/
  | inCall (k : Nat)
  /-- permit released after an errored attempt `k`, in the backoff sleep -/
  | sleeping (k : Nat)
  /-- the task returned -/
  | done
  deriving DecidableEq, Repr

/-- State of the interleaved batch: available semaphore permits and the
phase of every task. -/
structure Sys where
  avail : Nat
  tasks : List TPhase
  deriving DecidableEq, Repr

/-- Initial state: `asyncio.Semaphore(pool)` full, every task about to
run attempt 0. -/
def initSys (n pool : Nat) : Sys :=
  { avail := pool, tasks := List.replicate n (.waiting 0) }

/-- Does this task hold an external call in flight? -/
def isInCall : TPhase → Bool
  | .inCall _ => true
  | _ => false

/-- Number of external calls in flight, batch-wide. -/
def inFlight (s : Sys) : Nat := s.tasks.countP isInCall

/-- One scheduler step of the interleaved batch.  A task may enter
`async with sem` only when a permit is available; completing the call —
by the success return, by the breaker-tripping return, or by the
exception path — releases the permit; waking from the backoff sleep
either starts the next attempt or ends the task when the loop is
exhausted.  No step lets a task hold a call in flight without having
taken a permit. -/
inductive SemStep : Sys → Sys → Prop where
  | acquire (s : Sys) (i k a : Nat) :
      s.tasks[i]? = some (.waiting k) → s.avail = a + 1 →
      SemStep s { avail := a, tasks := s.tasks.set i (.inCall k) }
  | finishReturn (s : Sys) (i k : Nat) :
      s.tasks[i]? = some (.inCall k) →
      SemStep s { avail := s.avail + 1, tasks := s.tasks.set i .done }
  | finishError (s : Sys) (i k : Nat) :
      s.tasks[i]? = some (.inCall k) →
      SemStep s { avail := s.avail + 1, tasks := s.tasks.set i (.sleeping k) }
  | wake (s : Sys) (i k : Nat) :
      s.tasks[i]? = some (.sleeping k) →
      SemStep s { avail := s.avail, tasks := s.tasks.set i (.waiting (k + 1)) }
  | exhaust (s : Sys) (i k : Nat) :
      s.tasks[i]? = some (.sleeping k) →
      SemStep s { avail := s.avail, tasks := s.tasks.set i .done }

/-- States of an `n`-item batch run with pool size `pool` reachable under
any interleaving. -/
inductive Reachable (n pool : Nat) : Sys → Prop where
  | init : Reachable n pool (initSys n pool)
  | step {s t : Sys} : Reachable n pool s → SemStep s t → Reachable n pool t

lemma retryLoop_allFail (threshold : Nat) (op : Nat → Except PyError Record)
    (hop : ∀ k, ∃ e, op k = .error e) :
    ∀ remaining k fc, fc + remaining ≤ threshold →
      retryLoop threshold op remaining k fc false = (allFailTrace remaining k fc, none) := by
  intro remaining
  induction remaining with
  | zero => intro k fc _; rfl
  | succ r ih =>
    intro k fc h
    obtain ⟨e, he⟩ := hop k
    have hfc : ¬ (fc + 1 > threshold) := by omega
    simp [retryLoop, he, hfc, allFailTrace, ih (k + 1) (fc + 1) (by omega)]

lemma sleeps_allFailTrace :
    ∀ r k fc, sleeps (allFailTrace r k fc) = (List.range r).map (fun j => 2 ^ (k + j)) := by
  intro r
  induction r with
  | zero => intro k fc; rfl
  | succ n ih =>
    intro k fc
    have step : sleeps (allFailTrace (n + 1) k fc)
        = 2 ^ k :: sleeps (allFailTrace n (k + 1) (fc + 1)) := rfl
    rw [step, ih (k + 1) (fc + 1), List.range_succ_eq_map]
    simp only [List.map_cons, List.map_map, Function.comp]
    have harg : ∀ j : Nat, k + 1 + j = k + (j + 1) := by omega
    simp [harg]

lemma retryLoop_no_rejectOpen (threshold : Nat) (op : Nat → Except PyError Record) :
    ∀ remaining k fc, Ev.rejectOpen ∉ (retryLoop threshold op remaining k fc false).1 := by
  intro remaining
  induction remaining with
  | zero => intro k fc; simp [retryLoop]
  | succ r ih =>
    intro k fc
    simp only [retryLoop]
    cases hok : op k with
    | ok res => simp
    | error e =>
      by_cases h : fc + 1 > threshold
      · simp [h]
      · simpa [h] using ih (k + 1) (fc + 1)

lemma retryLoop_some_ok (threshold : Nat) (op : Nat → Except PyError Record) :
    ∀ remaining k fc c res, (retryLoop threshold op remaining k fc c).2 = some res →
      ∃ j, op j = .ok res := by
  intro remaining
  induction remaining with
  | zero => intro k fc c res h; simp [retryLoop] at h
  | succ r ih =>
    intro k fc c res h
    by_cases hc : c
    · subst hc; simp [retryLoop] at h
    · have hc' : c = false := by cases c <;> simp_all
      subst hc'
      simp only [retryLoop] at h
      cases hok : op k with
      | ok r0 =>
        refine ⟨k, ?_⟩
        rw [hok] at h ⊢
        simp at h
        rw [h]
      | error e =>
        rw [hok] at h
        by_cases ht : fc + 1 > threshold
        · simp [ht] at h
        · simp only [ht, if_false] at h
          simp at h
          exact ih (k + 1) (fc + 1) false res h

lemma retryLoop_succ_ok (threshold r k fc : Nat) (op : Nat → Except PyError Record)
    (res : Record) (h : op k = .ok res) :
    retryLoop threshold op (r + 1) k fc false = ([.call k], some res) := by
  simp [retryLoop, h]

lemma retryLoop_succ_err (threshold r k fc : Nat) (op : Nat → Except PyError Record)
    (e : PyError) (h : op k = .error e) (hle : fc + 1 ≤ threshold) :
    retryLoop threshold op (r + 1) k fc false =
      (.call k :: .recordFailure (fc + 1) :: .sleep (2 ^ k) ::
        (retryLoop threshold op r (k + 1) (fc + 1) false).1,
       (retryLoop threshold op r (k + 1) (fc + 1) false).2) := by
  have hfc : ¬ (fc + 1 > threshold) := by omega
  simp [retryLoop, h, hfc]

/-- C1: the claim states that the failure counter and the open flag are
shared across all concurrently running retry instances and that the
circuit opens after the (FAILURE_THRESHOLD+1)-th failure batch-wide, after
which every attempt is rejected.  In the source both variables are local
to one call of `process_with_retries_and_circuit_breaker`, and each local
counter can reach at most RETRY_COUNT = 3, which never exceeds
FAILURE_THRESHOLD = 5: running a 20-item batch whose external operation
always errors records 60 failures in total, yet no run ever assigns
`circuit_open = True`, no attempt is rejected, and every item performs all
3 calls and returns None. -/
theorem c1_breaker_never_trips :
    (process_batch_ops RETRY_COUNT FAILURE_THRESHOLD (List.replicate 20 failOp)).all
      (fun p => p.2 == none && countCalls p.1 == 3 &&
        !(p.1.contains Ev.circuitOpened) && !(p.1.contains Ev.rejectOpen)) = true ∧
    ((process_batch_ops RETRY_COUNT FAILURE_THRESHOLD (List.replicate 20 failOp)).map
      (fun p => countCalls p.1)).sum = 60 := by
  decide

/-- C4: with the default RETRY_COUNT = 3, an operation that errors on
attempts 0 and 1 and succeeds on attempt 2 is invoked exactly three
times, with backoff sleeps of 1 and 2 time units between the consecutive
attempts, and the run returns the success record. -/
theorem c4_two_failures_then_success (op : Nat → Except PyError Record)
    (e0 e1 : PyError) (res : Record)
    (h0 : op 0 = .error e0) (h1 : op 1 = .error e1) (h2 : op 2 = .ok res) :
    process_with_retries_and_circuit_breaker RETRY_COUNT FAILURE_THRESHOLD op =
      ([.call 0, .recordFailure 1, .sleep 1, .call 1, .recordFailure 2, .sleep 2, .call 2],
        some res) := by
  have s0 : process_with_retries_and_circuit_breaker RETRY_COUNT FAILURE_THRESHOLD op
      = retryLoop 5 op (2 + 1) 0 0 false := rfl
  rw [s0, retryLoop_succ_err 5 2 0 0 op e0 h0 (by omega)]
  have s1 : retryLoop 5 op 2 1 1 false = retryLoop 5 op (1 + 1) 1 1 false := rfl
  rw [s1, retryLoop_succ_err 5 1 1 1 op e1 h1 (by omega)]
  have s2 : retryLoop 5 op 1 2 2 false = retryLoop 5 op (0 + 1) 2 2 false := rfl
  rw [s2, retryLoop_succ_ok 5 0 2 2 op res h2]
  norm_num

theorem c4_witness :
    process_with_retries_and_circuit_breaker RETRY_COUNT FAILURE_THRESHOLD c4op =
      ([.call 0, .recordFailure 1, .sleep 1, .call 1, .recordFailure 2, .sleep 2, .call 2],
        some { id := 9, status := "success", timestamp := "t", data := "d" }) :=
  c4_two_failures_then_success c4op (.exn "boom") (.exn "boom") _ rfl rfl rfl

/-- C5: the claim states that a malformed WorkItem is fatal for the item,
propagated to the batch executor and not retried.  In the source,
`do_api_call` on an item missing the "data" key raises `KeyError`, which
the generic `except Exception` of the retry loop catches like a transient
failure: the item is retried on all three attempts (with backoff sleeps)
and the run returns None, which `main` silently filters out — nothing is
propagated and the batch never aborts. -/
theorem c5_malformed_item_retried :
    process_with_retries_and_circuit_breaker RETRY_COUNT FAILURE_THRESHOLD
        (fun _ => do_api_call "t" { id := some 0, data := none }) =
      ([.call 0, .recordFailure 1, .sleep 1, .call 1, .recordFailure 2, .sleep 2,
        .call 2, .recordFailure 3, .sleep 4], none) := by
  decide

/-- C6 counterexample: the claim states that the backoff sleep happens
only between consecutive attempts and never after the final attempt.
Running the default configuration against an always-failing operation
produces three sleeps for three attempts: the trace ends with a sleep of
2 ^ 2 = 4 time units after the final call, before None is returned. -/
theorem c6_counterexample :
    process_with_retries_and_circuit_breaker RETRY_COUNT FAILURE_THRESHOLD failOp =
      ([.call 0, .recordFailure 1, .sleep 1, .call 1, .recordFailure 2, .sleep 2,
        .call 2, .recordFailure 3, .sleep 4], none) ∧
    (sleeps (process_with_retries_and_circuit_breaker RETRY_COUNT FAILURE_THRESHOLD
      failOp).1).length = 3 := by
  decide

/-- C6 amended: when every attempt errors and the breaker never trips
(retry count at most the threshold), the run returns None and sleeps
2 ^ k after every failed attempt k — including after the final attempt,
rather than returning immediately. -/
theorem c6_amended_sleep_after_last (R T : Nat) (op : Nat → Except PyError Record)
    (hR : R ≤ T) (hop : ∀ k, ∃ e, op k = .error e) :
    (process_with_retries_and_circuit_breaker R T op).2 = none ∧
    sleeps (process_with_retries_and_circuit_breaker R T op).1
      = (List.range R).map (fun k => 2 ^ k) := by
  have h := retryLoop_allFail T op hop R 0 0 (by omega)
  unfold process_with_retries_and_circuit_breaker
  rw [h]
  refine ⟨rfl, ?_⟩
  simpa using sleeps_allFailTrace R 0 0

theorem c6_witness :
    (process_with_retries_and_circuit_breaker 3 5 failOp).2 = none ∧
    sleeps (process_with_retries_and_circuit_breaker 3 5 failOp).1
      = (List.range 3).map (fun k => 2 ^ k) :=
  c6_amended_sleep_after_last 3 5 failOp (by omega) (fun _ => ⟨.exn "boom", rfl⟩)

/-- C7 counterexample: the claim states that a missing or malformed
configuration file makes the run proceed with the defaults and a warning.
A file holding valid JSON that is not an object (for instance a top-level
array) is malformed content, yet the code raises an uncaught
`AttributeError` from `config.get` instead of falling back to the
defaults; and syntactically invalid JSON is logged with `logger.error`,
not as a warning. -/
theorem c7_counterexample :
    main_load_config .jsonArray = .error (.attributeError "get") ∧
    main_load_config .invalidJson
      = .ok ((10, 3, 5), [.error "Invalid config file, using defaults"]) :=
  ⟨rfl, rfl⟩

/-- C7 amended: a missing file yields the defaults 10, 3, 5 with a
warning; syntactically invalid JSON yields the defaults with an
error-level message; valid JSON that is not an object aborts the run with
an uncaught `AttributeError`; a JSON object supplies each of the three
values, each one individually defaulting when absent. -/
theorem c7_amended_config :
    main_load_config .missing
      = .ok ((10, 3, 5), [.warn "Config file not found, using defaults"]) ∧
    main_load_config .invalidJson
      = .ok ((10, 3, 5), [.error "Invalid config file, using defaults"]) ∧
    main_load_config .jsonArray = .error (.attributeError "get") ∧
    ∀ p r f, main_load_config (.jsonObject p r f)
      = .ok ((p.getD 10, r.getD 3, f.getD 5), []) :=
  ⟨rfl, rfl, rfl, fun _ _ _ => rfl⟩

/-- C8: `circuit_open` is a function-local variable that starts False and
is assigned True only immediately before a return, so the circuit-open
check at the top of an attempt never observes True: for every
configuration and every operation the rejection branch that logs
"Circuit is open!" never appears in the trace. -/
theorem c8_reject_branch_unreachable (R T : Nat) (op : Nat → Except PyError Record) :
    Ev.rejectOpen ∉ (process_with_retries_and_circuit_breaker R T op).1 :=
  retryLoop_no_rejectOpen T op R 0 0

lemma run_item_wf (now : String) (i : Int) (d : String) :
    process_with_retries_and_circuit_breaker RETRY_COUNT FAILURE_THRESHOLD
        (fun _ => do_api_call now { id := some i, data := some d }) =
      ([.call 0], some { id := i, status := "success", timestamp := now, data := d }) := rfl

lemma run_item_none_or_id (now : String) (item : PyItem) :
    (process_with_retries_and_circuit_breaker RETRY_COUNT FAILURE_THRESHOLD
        (fun _ => do_api_call now item)).2 = none ∨
    ∃ r, (process_with_retries_and_circuit_breaker RETRY_COUNT FAILURE_THRESHOLD
        (fun _ => do_api_call now item)).2 = some r ∧ some r.id = item.id := by
  obtain ⟨oi, od⟩ := item
  cases oi with
  | none => exact Or.inl rfl
  | some i =>
    cases od with
    | none => exact Or.inl rfl
    | some d => exact Or.inr ⟨_, rfl, rfl⟩

lemma process_batch_cons (now : String) (it : PyItem) (its : List PyItem) :
    process_batch now (it :: its) =
      process_with_retries_and_circuit_breaker RETRY_COUNT FAILURE_THRESHOLD
        (fun _ => do_api_call now it) :: process_batch now its := rfl

/-- C2 counterexample: the claim states that for every input batch the
i-th returned outcome carries the i-th item's id.  On the batch holding
the single item with id 0 and no "data" key, the returned outcome is
None, which carries no item id at all. -/
theorem c2_counterexample :
    (process_batch "t" [{ id := some 0, data := none }]).map (fun p => p.2) = [none] ∧
    ({ id := some 0, data := none } : PyItem).id = some 0 :=
  ⟨rfl, rfl⟩

/-- C2 amended: the batch executor returns exactly one result per input
item, positionally corresponding to the input; every result that is a
record carries the id of its input item, while items whose runs fail
yield None, which carries no item id. -/
theorem c2_amended_order_and_ids (now : String) (items : List PyItem) :
    (process_batch now items).length = items.length ∧
    ∀ p ∈ items.zip (process_batch now items),
      p.2.2 = none ∨ ∃ r, p.2.2 = some r ∧ some r.id = p.1.id := by
  refine ⟨by simp [process_batch], ?_⟩
  induction items with
  | nil => intro p hp; simp at hp
  | cons it its ih =>
    intro p hp
    rw [process_batch_cons, List.zip_cons_cons] at hp
    rcases List.mem_cons.mp hp with h | h
    · subst h
      exact run_item_none_or_id now it
    · exact ih p h

theorem c2_witness :
    (process_batch "t" [{ id := some 5, data := some "x" }]).length = 1 ∧
    ((process_with_retries_and_circuit_breaker RETRY_COUNT FAILURE_THRESHOLD
        (fun _ => do_api_call "t" { id := some 5, data := some "x" })).2 = none ∨
      ∃ r, (process_with_retries_and_circuit_breaker RETRY_COUNT FAILURE_THRESHOLD
        (fun _ => do_api_call "t" { id := some 5, data := some "x" })).2 = some r ∧
        some r.id = some 5) := by
  have h := c2_amended_order_and_ids "t" [{ id := some 5, data := some "x" }]
  exact ⟨h.1, h.2 _ (List.mem_singleton.mpr rfl)⟩

lemma do_api_call_ok_status (now : String) (item : PyItem) (r : Record)
    (h : do_api_call now item = .ok r) : r.status = "success" := by
  obtain ⟨oi, od⟩ := item
  cases oi with
  | none => simp [do_api_call] at h
  | some i =>
    cases od with
    | none => simp [do_api_call] at h
    | some d =>
      simp [do_api_call] at h
      subst h
      rfl

/-- C9: every run of `process_with_retries_and_circuit_breaker` returns
either a value the operation produced — with `do_api_call` this is a
record whose status is "success" — or None; and both terminal causes
collapse to the same None: a run that trips the breaker (retry count 10,
threshold 1, always failing) and a run that merely exhausts its retries
(default configuration, always failing) both return None, so the caller
that filters the gathered results cannot tell Rejected from Failure. -/
theorem c9_none_or_success :
    (∀ R T op, (process_with_retries_and_circuit_breaker R T op).2 = none ∨
      ∃ k r, op k = .ok r ∧
        (process_with_retries_and_circuit_breaker R T op).2 = some r) ∧
    (∀ now item R T,
      (process_with_retries_and_circuit_breaker R T (fun _ => do_api_call now item)).2
        = none ∨
      ∃ r, (process_with_retries_and_circuit_breaker R T
          (fun _ => do_api_call now item)).2 = some r ∧ r.status = "success") ∧
    (process_with_retries_and_circuit_breaker 10 1 failOp).2 = none ∧
    Ev.circuitOpened ∈ (process_with_retries_and_circuit_breaker 10 1 failOp).1 ∧
    (process_with_retries_and_circuit_breaker RETRY_COUNT FAILURE_THRESHOLD failOp).2
      = none ∧
    Ev.circuitOpened ∉
      (process_with_retries_and_circuit_breaker RETRY_COUNT FAILURE_THRESHOLD failOp).1 := by
  refine ⟨?_, ?_, by decide, by decide, by decide, by decide⟩
  · intro R T op
    cases hres : (process_with_retries_and_circuit_breaker R T op).2 with
    | none => exact Or.inl rfl
    | some r =>
      obtain ⟨j, hj⟩ := retryLoop_some_ok T op R 0 0 false r hres
      exact Or.inr ⟨j, r, hj, rfl⟩
  · intro now item R T
    cases hres : (process_with_retries_and_circuit_breaker R T
        (fun _ => do_api_call now item)).2 with
    | none => exact Or.inl rfl
    | some r =>
      obtain ⟨j, hj⟩ := retryLoop_some_ok T (fun _ => do_api_call now item) R 0 0 false r hres
      exact Or.inr ⟨r, rfl, do_api_call_ok_status now item r hj⟩

/-- C10: `do_api_call` on a well-formed item (both the "id" and the
"data" key present) never raises and returns the success record built
from the item; consequently `process_batch` on a batch of well-formed
items makes exactly one external call per item and returns one success
record per item, each carrying the id of its input item. -/
theorem c10_wellformed_success :
    (∀ now (i : Int) (d : String),
      do_api_call now { id := some i, data := some d }
        = .ok { id := i, status := "success", timestamp := now, data := d }) ∧
    (∀ now (items : List PyItem),
      (∀ it ∈ items, ∃ i d, it = { id := some i, data := some d }) →
      (process_batch now items).map Prod.snd
          = items.map (fun it =>
              some { id := it.id.getD 0, status := "success", timestamp := now,
                     data := it.data.getD "" }) ∧
      ∀ p ∈ process_batch now items, countCalls p.1 = 1) := by
  refine ⟨fun now i d => rfl, ?_⟩
  intro now items
  induction items with
  | nil =>
    intro _
    refine ⟨rfl, ?_⟩
    intro p hp
    simp [process_batch] at hp
  | cons it its ih =>
    intro h
    obtain ⟨i, d, hit⟩ := h it (List.mem_cons_self it its)
    have hrest := ih (fun x hx => h x (List.mem_cons_of_mem it hx))
    subst hit
    refine ⟨?_, ?_⟩
    · rw [process_batch_cons, List.map_cons, List.map_cons, hrest.1, run_item_wf]
      rfl
    · intro p hp
      rw [process_batch_cons] at hp
      rcases List.mem_cons.mp hp with h1 | h1
      · subst h1
        rw [run_item_wf]
        rfl
      · exact hrest.2 p h1

theorem c10_witness :
    (process_batch "t"
        [{ id := some 1, data := some "a" }, { id := some 2, data := some "b" }]).map
      Prod.snd
      = [some { id := 1, status := "success", timestamp := "t", data := "a" },
         some { id := 2, status := "success", timestamp := "t", data := "b" }] :=
  (c10_wellformed_success.2 "t"
    [{ id := some 1, data := some "a" }, { id := some 2, data := some "b" }]
    (by
      intro it hit
      rcases List.mem_cons.mp hit with h | h
      · exact ⟨1, "a", h⟩
      · rcases List.mem_cons.mp h with h2 | h2
        · exact ⟨2, "b", h2⟩
        · simp at h2)).1

lemma countP_set_of_getElem? (p : TPhase → Bool) (l : List TPhase) (i : Nat)
    (a b : TPhase) (h : l[i]? = some a) :
    (l.set i b).countP p + (if p a then 1 else 0)
      = l.countP p + (if p b then 1 else 0) := by
  induction l generalizing i with
  | nil => simp at h
  | cons x xs ih =>
    cases i with
    | zero =>
      simp only [List.getElem?_cons_zero, Option.some.injEq] at h
      subst h
      simp [List.countP_cons]
      omega
    | succ j =>
      simp only [List.getElem?_cons_succ] at h
      simp only [List.set_cons_succ, List.countP_cons]
      have := ih j h
      omega

lemma countP_replicate_waiting (n : Nat) :
    (List.replicate n (TPhase.waiting 0)).countP isInCall = 0 := by
  induction n with
  | zero => rfl
  | succ m ih => simp [List.replicate_succ, List.countP_cons, ih, isInCall]

lemma reachable_permit_inv (n pool : Nat) (s : Sys) (h : Reachable n pool s) :
    s.avail + inFlight s = pool := by
  induction h with
  | init => simp [initSys, inFlight, countP_replicate_waiting]
  | step _ hstep ih =>
    cases hstep with
    | acquire i k a hi ha =>
      have hc := countP_set_of_getElem? isInCall _ i _ (TPhase.inCall k) hi
      simp [isInCall] at hc
      simp only [inFlight] at ih ⊢
      omega
    | finishReturn i k hi =>
      have hc := countP_set_of_getElem? isInCall _ i _ TPhase.done hi
      simp [isInCall] at hc
      simp only [inFlight] at ih ⊢
      omega
    | finishError i k hi =>
      have hc := countP_set_of_getElem? isInCall _ i _ (TPhase.sleeping k) hi
      simp [isInCall] at hc
      simp only [inFlight] at ih ⊢
      omega
    | wake i k hi =>
      have hc := countP_set_of_getElem? isInCall _ i _ (TPhase.waiting (k + 1)) hi
      simp [isInCall] at hc
      simp only [inFlight] at ih ⊢
      omega
    | exhaust i k hi =>
      have hc := countP_set_of_getElem? isInCall _ i _ TPhase.done hi
      simp [isInCall] at hc
      simp only [inFlight] at ih ⊢
      omega

/-- C3: under every interleaving of the batch, at no reachable instant
are more than `pool` external calls concurrently in flight: a task may
have a call in flight only while holding one of the `pool` semaphore
permits, and the permit is released exactly when the call completes,
whether it returns or raises. -/
theorem c3_inflight_bounded (n pool : Nat) (s : Sys) (h : Reachable n pool s) :
    inFlight s ≤ pool := by
  have := reachable_permit_inv n pool s h
  omega

theorem c3_witness :
    inFlight { avail := 9,
               tasks := (List.replicate 20 (TPhase.waiting 0)).set 0 (TPhase.inCall 0) } ≤ 10 :=
  c3_inflight_bounded 20 10 _
    (Reachable.step Reachable.init (SemStep.acquire (initSys 20 10) 0 0 9 rfl rfl))
